import Mathlib

/-!
# The benchmark driver `main` of `src/main.c`

`main` is a straight-line driver around calls into other translation units
(matrix readers, format builders, kernels, the performance list).  It is
embedded here as a function that threads the driver's own variables through
the loop over directory entries and emits, in program order, one `Event` per
call or field access that `main` performs.  Everything `main` gets back from
the outside (the directory listing, the result of `read_matrix`, the result of
`calloc`, the readings of `omp_get_wtime`, the verdicts of `compute_norm`) is an
input of the model.  Wall-clock readings and the accumulated `time` are exact
rationals.
-/

namespace SpMV

/-- Repetitions per serial measurement (`#define COMPUTATION_NUMBER 5`). -/
def COMPUTATION_NUMBER : Nat := 5

/-- Exit status used by `exit(EXIT_FAILURE)`. -/
def EXIT_FAILURE : Int := 1

/-- Tolerance literal `1e-4` passed to `compute_norm` (line 160). -/
def TOLERANCE : ℚ := 1 / 10000

/-- The three vector variables of `main` (`double *x, *y, *z`).  Each is bound
once per processed entry (lines 99-101) and released at lines 232-234. -/
inductive Vec where
  | x
  | y
  | z
  deriving DecidableEq, Repr

/-- The two `computation_type` constants that `main` itself assigns. -/
inductive computation_type where
  | SERIAL_CSR
  | SERIAL_HHL
  deriving DecidableEq, Repr

/-- Modelled from the spec: the `matrix_format` struct (its header
`headers/matrix_format.h` is not among the sources).  The spec's coordinate
matrix has dimensions M (rows), N (cols) and an nnz count; the name buffer and
the count field are the two members `main` touches. -/
structure matrix_format where
  name : String
  M : Nat
  N : Nat
  number_of_non_zeoroes_values : Int
  deriving DecidableEq, Repr

/-- Modelled from the spec: the `CSR_matrix` struct (`data_structures/csr_matrix.h`
is not among the sources): name, M, N, NZ. -/
structure CSR_matrix where
  name : String
  M : Nat
  N : Nat
  NZ : Int
  deriving DecidableEq, Repr

/-- Modelled from the spec: `struct performance` (`data_structures/performance.h`
is not among the sources): matrix identifier, nnz count, computation kind and
mean time.  `computation = none` is the zeroed record before a kind is stored. -/
structure performance where
  matrix : String
  non_zeroes_values : Int
  computation : Option computation_type
  mean_time : ℚ
  deriving DecidableEq, Repr

/-- The record as `calloc(1, sizeof(struct performance))` leaves it. -/
def performance.zeroed : performance :=
  { matrix := "", non_zeroes_values := 0, computation := none, mean_time := 0 }

/-- The `printf` calls of `main`, by source line. -/
inductive Message where
  | opendir_error          -- line 56
  | processing             -- line 78
  | read_error             -- line 83
  | non_zeroes             -- line 87
  | calloc_error           -- line 106
  | serial_csr_time        -- line 129
  | check_error            -- line 162
  | serial_hll_time        -- line 168
  | parallel_csr_banner    -- line 182
  | parallel_hll_banner    -- line 198
  deriving DecidableEq, Repr

/-- One observable action of `main`: a call into another translation unit or
the C library, or an access through one of its pointers.  Pointers to matrix
objects and performance records are allocation numbers; `none` is `NULL`. -/
inductive Event where
  | initialize_threads_number
  | opendir (ok : Bool)
  | readdir (d_name : Option String)
  | get_csr_matrix (csr : Nat)
  | get_hll_matrix (hll : Nat)
  | get_matrix_format_matrix (matrix : Nat)
  | printf (msg : Message)
  | get_matrix_file (matrix_filename : String)
  | read_matrix (matrix : Nat) (ok : Bool)
  | read_non_zeroes (matrix : Nat) (value : Int)
  | read_CSR_matrix (csr matrix : Nat)
  | read_HLL_matrix (hll matrix : Nat)
  | mtx_cleanup (matrix : Nat)
  | initialize_x_vector (len : Nat)
  | initialize_y_vector (v : Vec) (len : Nat)
  | calloc (node : Option Nat)
  | store_matrix (node : Option Nat) (name : String)
  | store_non_zeroes_values (node : Option Nat) (value : Int)
  | store_computation (node : Option Nat) (kind : computation_type)
  | re_initialize_y_vector (len : Nat) (v : Vec)
  | omp_get_wtime (reading : ℚ)
  | matvec_serial_csr (csr : Nat) (input output : Vec)
  | matvec_serial_hll (hll : Nat) (input output : Vec)
  | compute_norm (baseline candidate : Vec) (len : Nat) (tol : ℚ) (ok : Bool)
  | sleep (seconds : Nat)
  | compute_serial_performance (node : Nat) (time : ℚ) (nnz : Int)
  | add_node_performance (node : Nat) (record : performance)
  | print_serial_csr_result (node : Nat)
  | print_list
  | print_serial_hll_result (node : Nat)
  | reset_node (node : Nat)
  | matvec_parallel_csr (csr : Nat) (input output : Vec) (node : Nat) (nnz : Int) (baseline : Vec)
  | matvec_parallel_hll (hll : Nat) (input output : Vec) (node : Nat) (nnz : Int) (baseline : Vec)
  | invoke_cuda_csr_kernels (csr : Nat) (input output baseline : Vec) (node : Nat)
  | invoke_cuda_hll_kernels (hll : Nat) (input output baseline : Vec) (node : Nat)
  | save_performance_to_csv
  | free_performance_list
  | destroy_HLL_matrix (hll : Nat)
  | destroy_CSR_matrix (csr : Nat)
  | free (v : Vec)
  | closedir
  | exit (status : Int)
  deriving DecidableEq, Repr

/-- What `read_matrix` decodes from a file: the spec's coordinate-matrix header. -/
structure Decoded where
  M : Nat
  N : Nat
  nnz : Int
  deriving DecidableEq, Repr

/-- One directory entry together with what the outside world answers while
`main` handles it. -/
structure Entry where
  /-- The member `entry->d_name`. -/
  d_name : String
  /-- Result of `read_matrix`: `none` is the return value -1. -/
  read : Option Decoded
  /-- Whether `calloc` at line 103 returns a non-NULL pointer. -/
  calloc_ok : Bool
  /-- Reading of `omp_get_wtime` at line 117 in repetition `k`. -/
  csr_start : Nat → ℚ
  /-- Reading of `omp_get_wtime` at line 121 in repetition `k`. -/
  csr_end : Nat → ℚ
  /-- Reading of `omp_get_wtime` at line 151 in repetition `k`. -/
  hll_start : Nat → ℚ
  /-- Reading of `omp_get_wtime` at line 155 in repetition `k`. -/
  hll_end : Nat → ℚ
  /-- Return value of `compute_norm` at line 160 in repetition `k`. -/
  norm : Nat → Bool

/-- The variables of `main` whose values survive from one loop iteration to
the next, and the bookkeeping of what is allocated.  All other locals
(`node`, `x`, `y`, `z`, `csr_matrix`, ...) are assigned afresh before use in
every iteration. -/
structure State where
  /-- The local `time` (line 34). -/
  time : ℚ
  /-- Number of objects allocated so far; the next fresh pointer. -/
  next : Nat
  /-- CSR objects obtained from `get_csr_matrix` and not yet destroyed. -/
  live_csr : List Nat
  /-- HLL objects obtained from `get_hll_matrix` and not yet destroyed. -/
  live_hll : List Nat
  /-- Vectors allocated and not yet freed. -/
  live_vec : List Vec
  deriving DecidableEq, Repr

/-- How a piece of `main` ends. -/
inductive Outcome where
  /-- Control reaches the next `readdir` (end of the body, or `continue`). -/
  | next_entry
  /-- The function `exit` was called with this status. -/
  | exited (status : Int)
  /-- The body stored through a NULL `node`. -/
  | null_store
  /-- The statement `return 0` of `main` was reached. -/
  | returned (status : Int)
  deriving DecidableEq, Repr

/-- Events emitted, variables afterwards, and how control left. -/
structure Run where
  trace : List Event
  state : State
  outcome : Outcome

/-- Modelled from the spec: the CSR builder `read_CSR_matrix` (not among the
sources) as far as `main` depends on it: the CSR object takes its dimensions
and count from the coordinate matrix; its name was stored at line 89. -/
def read_CSR_matrix (name : String) (matrix : matrix_format) : CSR_matrix :=
  { name := name, M := matrix.M, N := matrix.N, NZ := matrix.number_of_non_zeoroes_values }

/-- Modelled from the spec: `compute_serial_performance` (not among the sources)
as far as the record model goes: it stores the mean time it is given. -/
def compute_serial_performance (node : performance) (time : ℚ) : performance :=
  { node with mean_time := time }

/-- Lines 113-126: the serial-CSR repetition loop, `n` repetitions left,
starting at counter `k`, with the running value of `time`. -/
def serial_csr_loop (e : Entry) (csr M : Nat) : Nat → Nat → ℚ → List Event × ℚ
  | 0, _, time => ([], time)
  | n + 1, k, time =>
    let start := e.csr_start k
    let end_t := e.csr_end k
    let time_used := end_t - start
    let rest := serial_csr_loop e csr M n (k + 1) (time + time_used)
    ([Event.re_initialize_y_vector M Vec.y,
      Event.omp_get_wtime start,
      Event.matvec_serial_csr csr Vec.x Vec.y,
      Event.omp_get_wtime end_t] ++ rest.1, rest.2)

/-- Lines 147-165: the serial-HLL repetition loop with the consistency check. -/
def serial_hll_loop (e : Entry) (hll M : Nat) : Nat → Nat → ℚ → List Event × ℚ
  | 0, _, time => ([], time)
  | n + 1, k, time =>
    let start := e.hll_start k
    let end_t := e.hll_end k
    let time_used := end_t - start
    let ok := e.norm k
    let check :=
      if ok then [] else [Event.printf Message.check_error, Event.sleep 3]
    let rest := serial_hll_loop e hll M n (k + 1) (time + time_used)
    ([Event.re_initialize_y_vector M Vec.z,
      Event.omp_get_wtime start,
      Event.matvec_serial_hll hll Vec.x Vec.z,
      Event.omp_get_wtime end_t,
      Event.compute_norm Vec.y Vec.z M TOLERANCE ok] ++ check ++ rest.1, rest.2)

/-- Lines 109-236: the body of the loop from the first use of `node` on, once
the decoded matrix has been converted and `node` is non-NULL.  `cleaned` is the
coordinate matrix object as `mtx_cleanup` left it; `p` is the pointer numbering
base of this iteration (`p` = CSR object, `p + 1` = HLL object, `p + 2` =
coordinate matrix, `p + 3` .. `p + 8` = performance records).  The function
`reset_node` (not among the sources) is taken to hand back a fresh zeroed
record, as `calloc` does at line 103.  What the kernels and the list functions
do behind their pointer arguments is not part of `main` and is not modelled:
the trace records the call and its arguments. -/
def measure (e : Entry) (csr : CSR_matrix) (cleaned : matrix_format) (p : Nat)
    (s : State) : Run :=
  let matrix_filename := e.d_name
  -- lines 109-111
  let node := p + 3
  let rec1 : performance :=
    { performance.zeroed with
      matrix := csr.name
      non_zeroes_values := cleaned.number_of_non_zeoroes_values
      computation := some computation_type.SERIAL_CSR }
  let t1 :=
    [Event.store_matrix (some node) csr.name,
     Event.read_non_zeroes (p + 2) cleaned.number_of_non_zeoroes_values,
     Event.store_non_zeroes_values (some node) cleaned.number_of_non_zeoroes_values,
     Event.store_computation (some node) computation_type.SERIAL_CSR]
  -- lines 113-126: `time` is used as it stands
  let l1 := serial_csr_loop e p csr.M COMPUTATION_NUMBER 0 s.time
  -- line 128
  let time := l1.2 / (COMPUTATION_NUMBER : ℚ)
  -- lines 129-135
  let rec1 := compute_serial_performance rec1 time
  let t2 :=
    [Event.printf Message.serial_csr_time,
     Event.read_non_zeroes (p + 2) cleaned.number_of_non_zeoroes_values,
     Event.compute_serial_performance node time cleaned.number_of_non_zeoroes_values,
     Event.add_node_performance node rec1,
     Event.print_serial_csr_result node,
     Event.print_list]
  -- lines 141-145
  let node := p + 4
  let time : ℚ := 0
  let rec2 : performance := { performance.zeroed with matrix := csr.name }
  let t3 := [Event.reset_node node, Event.store_matrix (some node) csr.name]
  -- lines 147-165
  let l2 := serial_hll_loop e (p + 1) csr.M COMPUTATION_NUMBER 0 time
  -- line 167
  let time := l2.2 / (COMPUTATION_NUMBER : ℚ)
  -- lines 168-176
  let rec2 := compute_serial_performance rec2 time
  let rec2 : performance :=
    { rec2 with
      non_zeroes_values := cleaned.number_of_non_zeoroes_values
      computation := some computation_type.SERIAL_HHL }
  let t4 :=
    [Event.printf Message.serial_hll_time,
     Event.read_non_zeroes (p + 2) cleaned.number_of_non_zeoroes_values,
     Event.compute_serial_performance node time cleaned.number_of_non_zeoroes_values,
     Event.read_non_zeroes (p + 2) cleaned.number_of_non_zeoroes_values,
     Event.store_non_zeroes_values (some node) cleaned.number_of_non_zeoroes_values,
     Event.store_computation (some node) computation_type.SERIAL_HHL,
     Event.add_node_performance node rec2,
     Event.print_serial_hll_result node]
  -- lines 182-192
  let t5 :=
    [Event.printf Message.parallel_csr_banner,
     Event.reset_node (p + 5),
     Event.store_matrix (some (p + 5)) matrix_filename,
     Event.re_initialize_y_vector csr.M Vec.z,
     Event.read_non_zeroes (p + 2) cleaned.number_of_non_zeoroes_values,
     Event.matvec_parallel_csr p Vec.x Vec.z (p + 5)
       cleaned.number_of_non_zeoroes_values Vec.y,
     Event.sleep 3]
  -- lines 198-208
  let t6 :=
    [Event.printf Message.parallel_hll_banner,
     Event.reset_node (p + 6),
     Event.store_matrix (some (p + 6)) matrix_filename,
     Event.re_initialize_y_vector csr.M Vec.z,
     Event.read_non_zeroes (p + 2) cleaned.number_of_non_zeoroes_values,
     Event.matvec_parallel_hll (p + 1) Vec.x Vec.z (p + 6)
       cleaned.number_of_non_zeoroes_values Vec.y,
     Event.sleep 3]
  -- lines 210-223
  let t7 :=
    [Event.reset_node (p + 7),
     Event.re_initialize_y_vector csr.M Vec.z,
     Event.invoke_cuda_csr_kernels p Vec.x Vec.z Vec.y (p + 7),
     Event.reset_node (p + 8),
     Event.re_initialize_y_vector csr.M Vec.z,
     Event.invoke_cuda_hll_kernels (p + 1) Vec.x Vec.z Vec.y (p + 8)]
  -- lines 225-236
  let t8 :=
    [Event.save_performance_to_csv,
     Event.free_performance_list,
     Event.destroy_HLL_matrix (p + 1),
     Event.destroy_CSR_matrix p,
     Event.free Vec.x,
     Event.free Vec.y,
     Event.free Vec.z,
     Event.sleep 3]
  { trace := t1 ++ l1.1 ++ t2 ++ t3 ++ l2.1 ++ t4 ++ t5 ++ t6 ++ t7 ++ t8
    state :=
      { time := time
        next := p + 9
        live_csr := s.live_csr.erase p
        live_hll := s.live_hll.erase (p + 1)
        live_vec := ((s.live_vec.erase Vec.x).erase Vec.y).erase Vec.z }
    outcome := Outcome.next_entry }

/-- Lines 66-236: one pass through the body of the `while` loop for the entry
`e` that `readdir` returned.  `mtx_cleanup` is the effect of the function of
that name (not among the sources) on the coordinate matrix object. -/
def iteration (mtx_cleanup : matrix_format → matrix_format) (e : Entry) (s : State) : Run :=
  let p := s.next
  -- lines 66-70
  let s1 : State :=
    { s with next := p + 3, live_csr := p :: s.live_csr, live_hll := (p + 1) :: s.live_hll }
  let t1 :=
    [Event.get_csr_matrix p, Event.get_hll_matrix (p + 1),
     Event.get_matrix_format_matrix (p + 2)]
  -- lines 72-73
  if e.d_name.data.head? = some '.' then
    { trace := t1, state := s1, outcome := Outcome.next_entry }
  else
    -- lines 75-81
    let t2 := [Event.printf Message.processing, Event.get_matrix_file e.d_name]
    match e.read with
    | none =>
      -- lines 81-85
      { trace := t1 ++ t2 ++
          [Event.read_matrix (p + 2) false, Event.printf Message.read_error,
           Event.exit EXIT_FAILURE]
        state := s1
        outcome := Outcome.exited EXIT_FAILURE }
    | some d =>
      let matrix : matrix_format :=
        { name := e.d_name, M := d.M, N := d.N, number_of_non_zeoroes_values := d.nnz }
      -- lines 87-96
      let csr := read_CSR_matrix e.d_name matrix
      let cleaned := mtx_cleanup matrix
      let t3 :=
        [Event.read_matrix (p + 2) true,
         Event.read_non_zeroes (p + 2) matrix.number_of_non_zeoroes_values,
         Event.printf Message.non_zeroes,
         Event.read_CSR_matrix p (p + 2),
         Event.read_HLL_matrix (p + 1) (p + 2),
         Event.mtx_cleanup (p + 2)]
      -- lines 99-101
      let t4 :=
        [Event.initialize_x_vector csr.M,
         Event.initialize_y_vector Vec.y csr.M,
         Event.initialize_y_vector Vec.z csr.M]
      let s2 : State := { s1 with live_vec := Vec.z :: Vec.y :: Vec.x :: s1.live_vec }
      -- lines 103-109
      if e.calloc_ok then
        let r := measure e csr cleaned p s2
        { r with trace := t1 ++ t2 ++ t3 ++ t4 ++ [Event.calloc (some (p + 3))] ++ r.trace }
      else
        { trace := t1 ++ t2 ++ t3 ++ t4 ++
            [Event.calloc none, Event.printf Message.calloc_error,
             Event.store_matrix none csr.name]
          state := s2
          outcome := Outcome.null_store }

/-- Lines 63-237: the `while ((entry = readdir(dir)) != NULL)` loop over the
entries the directory stream still holds. -/
def loop (mtx_cleanup : matrix_format → matrix_format) : List Entry → State → Run
  | [], s => { trace := [Event.readdir none], state := s, outcome := Outcome.next_entry }
  | e :: rest, s =>
    let r := iteration mtx_cleanup e s
    match r.outcome with
    | Outcome.next_entry =>
      let r2 := loop mtx_cleanup rest r.state
      { r2 with trace := Event.readdir (some e.d_name) :: r.trace ++ r2.trace }
    | _ => { r with trace := Event.readdir (some e.d_name) :: r.trace }

/-- The values of `main`'s variables when the loop is first entered. -/
def State.initial : State :=
  { time := 0, next := 0, live_csr := [], live_hll := [], live_vec := [] }

/-- The function `main`.  `dir = none` is `opendir` returning NULL; otherwise
`dir` lists the entries `readdir` will return, in order. -/
def main (mtx_cleanup : matrix_format → matrix_format) (dir : Option (List Entry)) : Run :=
  match dir with
  | none =>
    { trace :=
        [Event.initialize_threads_number, Event.opendir false,
         Event.printf Message.opendir_error, Event.exit EXIT_FAILURE]
      state := State.initial
      outcome := Outcome.exited EXIT_FAILURE }
  | some entries =>
    let r := loop mtx_cleanup entries State.initial
    let t0 := [Event.initialize_threads_number, Event.opendir true]
    match r.outcome with
    | Outcome.next_entry =>
      { trace := t0 ++ r.trace ++ [Event.closedir], state := r.state,
        outcome := Outcome.returned 0 }
    | _ => { r with trace := t0 ++ r.trace }

/-! ## Reading a trace -/

/-- The output buffer of a call to one of the six kernel entry points. -/
def Event.kernel_output : Event → Option Vec
  | Event.matvec_serial_csr _ _ out => some out
  | Event.matvec_serial_hll _ _ out => some out
  | Event.matvec_parallel_csr _ _ out _ _ _ => some out
  | Event.matvec_parallel_hll _ _ out _ _ _ => some out
  | Event.invoke_cuda_csr_kernels _ _ out _ _ => some out
  | Event.invoke_cuda_hll_kernels _ _ out _ _ => some out
  | _ => none

/-- The output buffer the spec assigns to each kernel entry point: `y` for
serial CSR, the second buffer `z` for all others. -/
def Event.output_as_specified : Event → Bool
  | Event.matvec_serial_csr _ _ out => decide (out = Vec.y)
  | Event.matvec_serial_hll _ _ out => decide (out = Vec.z)
  | Event.matvec_parallel_csr _ _ out _ _ _ => decide (out = Vec.z)
  | Event.matvec_parallel_hll _ _ out _ _ _ => decide (out = Vec.z)
  | Event.invoke_cuda_csr_kernels _ _ out _ _ => decide (out = Vec.z)
  | Event.invoke_cuda_hll_kernels _ _ out _ _ => decide (out = Vec.z)
  | _ => true

/-- Whether the event is `re_initialize_y_vector` on buffer `v`. -/
def Event.zeroes (v : Vec) : Event → Bool
  | Event.re_initialize_y_vector _ w => decide (w = v)
  | _ => false

/-- Whether the event changes what buffer `v` holds other than by zeroing it:
a kernel writing into it, its allocation, or its release. -/
def Event.writes (v : Vec) : Event → Bool
  | Event.initialize_x_vector _ => decide (Vec.x = v)
  | Event.initialize_y_vector w _ => decide (w = v)
  | Event.free w => decide (w = v)
  | e => decide (e.kernel_output = some v)

/-- Buffer `v` was zeroed by a `re_initialize_y_vector` call in `pre` and not
written since. -/
def ZeroedSince (v : Vec) (pre : List Event) : Prop :=
  ∃ a len mid, pre = a ++ Event.re_initialize_y_vector len v :: mid ∧
    ∀ e ∈ mid, e.writes v = false

/-- Every kernel call in the trace finds its output buffer zeroed by an
earlier `re_initialize_y_vector` call with no write to it in between. -/
def ZeroedBeforeEachKernel (t : List Event) : Prop :=
  ∀ pre k post v, t = pre ++ k :: post → k.kernel_output = some v → ZeroedSince v pre

/-- Which buffers are zeroed-and-untouched after one more event. -/
def fresh_after (st : Vec → Bool) (e : Event) : Vec → Bool :=
  fun v => e.zeroes v || (st v && !e.writes v)

/-- The buffers zeroed-and-untouched after a block of events. -/
def fresh_after_all (st : Vec → Bool) : List Event → Vec → Bool
  | [] => st
  | e :: b => fresh_after_all (fresh_after st e) b

/-- Scan of a block: each kernel call must find its output buffer fresh. -/
def kernels_fresh (st : Vec → Bool) : List Event → Bool
  | [] => true
  | e :: b =>
    (match e.kernel_output with
      | some v => st v
      | none => true) && kernels_fresh (fresh_after st e) b

/-- A block all of whose kernel calls zero their buffer inside the block. -/
def SelfZeroing (b : List Event) : Prop := ∀ st, kernels_fresh st b = true

/-- Whether the event names one of the vectors `x`, `y`, `z`: allocation,
zeroing, a kernel call, the consistency check, release. -/
def Event.on_vectors : Event → Bool
  | Event.initialize_x_vector _ => true
  | Event.initialize_y_vector _ _ => true
  | Event.re_initialize_y_vector _ _ => true
  | Event.compute_norm _ _ _ _ _ => true
  | Event.free _ => true
  | e => e.kernel_output.isSome

/-- Whether the event is a kernel call or an append to the performance list. -/
def Event.kernel_or_append : Event → Bool
  | Event.add_node_performance _ _ => true
  | e => e.kernel_output.isSome

/-- Whether the event is an append to the performance list or a call to one of
the parallel / GPU entry points. -/
def Event.append_or_offload : Event → Bool
  | Event.add_node_performance _ _ => true
  | Event.matvec_parallel_csr _ _ _ _ _ _ => true
  | Event.matvec_parallel_hll _ _ _ _ _ _ => true
  | Event.invoke_cuda_csr_kernels _ _ _ _ _ => true
  | Event.invoke_cuda_hll_kernels _ _ _ _ _ => true
  | _ => false

/-- Whether the event is a call of `matvec_serial_hll`. -/
def Event.is_serial_hll : Event → Bool
  | Event.matvec_serial_hll _ _ _ => true
  | _ => false

/-- Events of the consistency check and of its mismatch branch (lines 160-164):
the `compute_norm` call, the mismatch message, a `sleep`. -/
def Event.advisory : Event → Bool
  | Event.compute_norm _ _ _ _ _ => true
  | Event.printf Message.check_error => true
  | Event.sleep _ => true
  | _ => false

/-- The time value handed to `compute_serial_performance`, if the event is that call. -/
def Event.serial_time : Event → Option ℚ
  | Event.compute_serial_performance _ time _ => some time
  | _ => none

/-- Whether the event reads the nonzero-count field of coordinate matrix `m`. -/
def Event.reads_matrix (m : Nat) : Event → Bool
  | Event.read_non_zeroes m2 _ => decide (m2 = m)
  | _ => false

/-- The part of a trace that follows the call `mtx_cleanup(m)`. -/
def after_cleanup (m : Nat) : List Event → List Event
  | [] => []
  | Event.mtx_cleanup m2 :: rest => if m2 = m then rest else after_cleanup m rest
  | _ :: rest => after_cleanup m rest

/-- Whether the event allocates one of the vectors. -/
def Event.allocates : Event → Bool
  | Event.initialize_x_vector _ => true
  | Event.initialize_y_vector _ _ => true
  | _ => false

/-- The mean of one measurement alone, in the spec's words: the sum of the
`COMPUTATION_NUMBER` durations `end - start` of the repetitions, divided by
`COMPUTATION_NUMBER`. -/
def mean_duration (start end_t : Nat → ℚ) : ℚ :=
  (∑ k in Finset.range COMPUTATION_NUMBER, (end_t k - start k)) / (COMPUTATION_NUMBER : ℚ)

/-- The vector traffic the spec asks of one processed matrix with `M` rows:
allocation, then per serial-CSR repetition a zeroing of `y` and the kernel, per
serial-HLL repetition a zeroing of `z`, the kernel and the check of `z` against
`y`, then the four parallel / GPU entry points each after a zeroing of `z` and
with `y` as baseline, then release.  `p` numbers the objects, `nnz` is the count
handed to the parallel entry points, `ok k` the verdict of check `k`. -/
def vector_schedule (p M : Nat) (nnz : Int) (ok : Nat → Bool) : List Event :=
  [Event.initialize_x_vector M,
   Event.initialize_y_vector Vec.y M,
   Event.initialize_y_vector Vec.z M,
   Event.re_initialize_y_vector M Vec.y, Event.matvec_serial_csr p Vec.x Vec.y,
   Event.re_initialize_y_vector M Vec.y, Event.matvec_serial_csr p Vec.x Vec.y,
   Event.re_initialize_y_vector M Vec.y, Event.matvec_serial_csr p Vec.x Vec.y,
   Event.re_initialize_y_vector M Vec.y, Event.matvec_serial_csr p Vec.x Vec.y,
   Event.re_initialize_y_vector M Vec.y, Event.matvec_serial_csr p Vec.x Vec.y,
   Event.re_initialize_y_vector M Vec.z, Event.matvec_serial_hll (p + 1) Vec.x Vec.z,
   Event.compute_norm Vec.y Vec.z M (1 / 10000) (ok 0),
   Event.re_initialize_y_vector M Vec.z, Event.matvec_serial_hll (p + 1) Vec.x Vec.z,
   Event.compute_norm Vec.y Vec.z M (1 / 10000) (ok 1),
   Event.re_initialize_y_vector M Vec.z, Event.matvec_serial_hll (p + 1) Vec.x Vec.z,
   Event.compute_norm Vec.y Vec.z M (1 / 10000) (ok 2),
   Event.re_initialize_y_vector M Vec.z, Event.matvec_serial_hll (p + 1) Vec.x Vec.z,
   Event.compute_norm Vec.y Vec.z M (1 / 10000) (ok 3),
   Event.re_initialize_y_vector M Vec.z, Event.matvec_serial_hll (p + 1) Vec.x Vec.z,
   Event.compute_norm Vec.y Vec.z M (1 / 10000) (ok 4),
   Event.re_initialize_y_vector M Vec.z,
   Event.matvec_parallel_csr p Vec.x Vec.z (p + 5) nnz Vec.y,
   Event.re_initialize_y_vector M Vec.z,
   Event.matvec_parallel_hll (p + 1) Vec.x Vec.z (p + 6) nnz Vec.y,
   Event.re_initialize_y_vector M Vec.z,
   Event.invoke_cuda_csr_kernels p Vec.x Vec.z Vec.y (p + 7),
   Event.re_initialize_y_vector M Vec.z,
   Event.invoke_cuda_hll_kernels (p + 1) Vec.x Vec.z Vec.y (p + 8),
   Event.free Vec.x, Event.free Vec.y, Event.free Vec.z]

/-- The kernel calls and list appends the spec asks of one processed matrix:
five serial-CSR runs, the serial-CSR record, five serial-HLL runs, the
serial-HLL record, then the parallel and GPU entry points.  Both records carry
the file name and the nonzero count; `t1`, `t2` are their mean times. -/
def record_schedule (p : Nat) (name : String) (nnz : Int) (t1 t2 : ℚ) : List Event :=
  [Event.matvec_serial_csr p Vec.x Vec.y,
   Event.matvec_serial_csr p Vec.x Vec.y,
   Event.matvec_serial_csr p Vec.x Vec.y,
   Event.matvec_serial_csr p Vec.x Vec.y,
   Event.matvec_serial_csr p Vec.x Vec.y,
   Event.add_node_performance (p + 3)
     { matrix := name, non_zeroes_values := nnz,
       computation := some computation_type.SERIAL_CSR, mean_time := t1 },
   Event.matvec_serial_hll (p + 1) Vec.x Vec.z,
   Event.matvec_serial_hll (p + 1) Vec.x Vec.z,
   Event.matvec_serial_hll (p + 1) Vec.x Vec.z,
   Event.matvec_serial_hll (p + 1) Vec.x Vec.z,
   Event.matvec_serial_hll (p + 1) Vec.x Vec.z,
   Event.add_node_performance (p + 4)
     { matrix := name, non_zeroes_values := nnz,
       computation := some computation_type.SERIAL_HHL, mean_time := t2 },
   Event.matvec_parallel_csr p Vec.x Vec.z (p + 5) nnz Vec.y,
   Event.matvec_parallel_hll (p + 1) Vec.x Vec.z (p + 6) nnz Vec.y,
   Event.invoke_cuda_csr_kernels p Vec.x Vec.z Vec.y (p + 7),
   Event.invoke_cuda_hll_kernels (p + 1) Vec.x Vec.z Vec.y (p + 8)]

/-- The coordinate matrix object after a successful `read_matrix` (lines 76, 81). -/
def decoded_matrix (e : Entry) (d : Decoded) : matrix_format :=
  { name := e.d_name, M := d.M, N := d.N, number_of_non_zeoroes_values := d.nnz }

/-- A directory entry holding an `M` by `N` matrix with `nnz` stored values,
for which every repetition takes one time unit and every check passes. -/
def sample_entry (name : String) (M N : Nat) (nnz : Int) : Entry :=
  { d_name := name, read := some { M := M, N := N, nnz := nnz }, calloc_ok := true
    csr_start := fun _ => 0, csr_end := fun _ => 1
    hll_start := fun _ => 0, hll_end := fun _ => 1
    norm := fun _ => true }

/-! ## Zeroing of output buffers -/

theorem zeroedBefore_snoc {t : List Event} {e : Event} (ht : ZeroedBeforeEachKernel t)
    (he : ∀ v, e.kernel_output = some v → ZeroedSince v t) :
    ZeroedBeforeEachKernel (t ++ [e]) := by
  intro pre k post v hsplit hk
  rcases List.eq_nil_or_concat post with hpost | ⟨post1, last, hpost⟩
  · subst hpost
    have h := List.append_inj_left' hsplit (by simp)
    have h2 := List.append_inj_right' hsplit (by simp)
    simp only [List.cons.injEq, and_true] at h2
    subst h
    subst h2
    exact he v hk
  · subst hpost
    have h3 : t ++ [e] = (pre ++ k :: post1) ++ [last] := by
      rw [hsplit]; simp
    have h := List.append_inj_left' h3 (by simp)
    exact ht pre k post1 v h hk

theorem fresh_after_sound {st : Vec → Bool} {t : List Event} (e : Event)
    (hst : ∀ v, st v = true → ZeroedSince v t) :
    ∀ v, fresh_after st e v = true → ZeroedSince v (t ++ [e]) := by
  intro v h
  unfold fresh_after at h
  rcases (Bool.or_eq_true _ _).mp h with hz | hw
  · cases e <;> simp [Event.zeroes] at hz
    subst hz
    exact ⟨t, _, [], rfl, by simp⟩
  · rw [Bool.and_eq_true] at hw
    obtain ⟨a, len, mid, hpre, hmid⟩ := hst v hw.1
    have hwr : e.writes v = false := by simpa using hw.2
    refine ⟨a, len, mid ++ [e], by simp [hpre], ?_⟩
    intro x hx
    rcases List.mem_append.mp hx with hx | hx
    · exact hmid x hx
    · simp only [List.mem_singleton] at hx
      subst hx
      exact hwr

theorem kernels_fresh_sound (b : List Event) :
    ∀ (t : List Event) (st : Vec → Bool), (∀ v, st v = true → ZeroedSince v t) →
      ZeroedBeforeEachKernel t → kernels_fresh st b = true →
      ZeroedBeforeEachKernel (t ++ b) := by
  induction b with
  | nil => intro t st _ ht _; simpa using ht
  | cons e b ih =>
    intro t st hst ht hb
    simp only [kernels_fresh, Bool.and_eq_true] at hb
    have h1 : ZeroedBeforeEachKernel (t ++ [e]) := by
      apply zeroedBefore_snoc ht
      intro v hv
      rw [hv] at hb
      exact hst v hb.1
    have h2 := ih (t ++ [e]) (fresh_after st e) (fresh_after_sound e hst) h1 hb.2
    simpa using h2

theorem kernels_fresh_append (a b : List Event) :
    ∀ st, kernels_fresh st (a ++ b) =
      (kernels_fresh st a && kernels_fresh (fresh_after_all st a) b) := by
  induction a with
  | nil => intro st; simp [kernels_fresh, fresh_after_all]
  | cons e a ih => intro st; simp [kernels_fresh, fresh_after_all, ih, Bool.and_assoc]

theorem SelfZeroing.append {a b : List Event} (ha : SelfZeroing a) (hb : SelfZeroing b) :
    SelfZeroing (a ++ b) := by
  intro st
  rw [kernels_fresh_append, ha st, hb _]
  rfl

theorem SelfZeroing.zeroed {b : List Event} (hb : SelfZeroing b) :
    ZeroedBeforeEachKernel b := by
  have h := kernels_fresh_sound b [] (fun _ => false) (by simp)
    (by
      intro pre k post v hsplit _
      cases pre <;> simp at hsplit)
    (hb _)
  simpa using h

theorem serial_csr_loop_selfZeroing (e : Entry) (csr M : Nat) :
    ∀ n k time, SelfZeroing (serial_csr_loop e csr M n k time).1 := by
  intro n
  induction n with
  | zero => intro k time st; simp [serial_csr_loop, kernels_fresh]
  | succ n ih =>
    intro k time
    simp only [serial_csr_loop]
    apply SelfZeroing.append _ (ih _ _)
    intro st
    simp [kernels_fresh, Event.kernel_output, fresh_after, Event.zeroes, Event.writes]

theorem serial_hll_loop_selfZeroing (e : Entry) (hll M : Nat) :
    ∀ n k time, SelfZeroing (serial_hll_loop e hll M n k time).1 := by
  intro n
  induction n with
  | zero => intro k time st; simp [serial_hll_loop, kernels_fresh]
  | succ n ih =>
    intro k time
    simp only [serial_hll_loop]
    apply SelfZeroing.append _ (ih _ _)
    intro st
    cases e.norm k <;>
      simp [kernels_fresh, Event.kernel_output, fresh_after, Event.zeroes, Event.writes]

theorem measure_selfZeroing (e : Entry) (csr : CSR_matrix) (cleaned : matrix_format)
    (p : Nat) (s : State) : SelfZeroing (measure e csr cleaned p s).trace := by
  simp only [measure]
  refine SelfZeroing.append (SelfZeroing.append (SelfZeroing.append (SelfZeroing.append
    (SelfZeroing.append (SelfZeroing.append (SelfZeroing.append (SelfZeroing.append
    (SelfZeroing.append ?_ ?_) ?_) ?_) ?_) ?_) ?_) ?_) ?_) ?_
  all_goals first
    | exact serial_csr_loop_selfZeroing _ _ _ _ _ _
    | exact serial_hll_loop_selfZeroing _ _ _ _ _ _
    | (intro st
       simp [kernels_fresh, Event.kernel_output, fresh_after, Event.zeroes, Event.writes])

theorem iteration_selfZeroing (c : matrix_format → matrix_format) (e : Entry) (s : State) :
    SelfZeroing (iteration c e s).trace := by
  unfold iteration
  simp only
  split
  · intro st
    simp [kernels_fresh, Event.kernel_output]
  · split
    · intro st
      simp [kernels_fresh, Event.kernel_output]
    · split
      · refine SelfZeroing.append ?_ (measure_selfZeroing _ _ _ _ _)
        intro st
        simp [kernels_fresh, Event.kernel_output]
      · intro st
        simp [kernels_fresh, Event.kernel_output]

theorem loop_selfZeroing (c : matrix_format → matrix_format) (es : List Entry) :
    ∀ s, SelfZeroing (loop c es s).trace := by
  induction es with
  | nil => intro s st; simp [loop, kernels_fresh, Event.kernel_output]
  | cons e es ih =>
    intro s
    have hr : SelfZeroing [Event.readdir (some e.d_name)] := by
      intro st; simp [kernels_fresh, Event.kernel_output]
    simp only [loop]
    split
    · exact SelfZeroing.append (a := [_]) hr
        (SelfZeroing.append (iteration_selfZeroing c e s) (ih _))
    · exact SelfZeroing.append (a := [_]) hr (iteration_selfZeroing c e s)

theorem main_selfZeroing (c : matrix_format → matrix_format) (dir : Option (List Entry)) :
    SelfZeroing (main c dir).trace := by
  cases dir with
  | none => intro st; simp [main, kernels_fresh, Event.kernel_output]
  | some es =>
    have h0 : SelfZeroing [Event.initialize_threads_number, Event.opendir true] := by
      intro st; simp [kernels_fresh, Event.kernel_output]
    have h1 : SelfZeroing [Event.closedir] := by
      intro st; simp [kernels_fresh, Event.kernel_output]
    simp only [main]
    split
    · exact SelfZeroing.append (SelfZeroing.append h0 (loop_selfZeroing c es _)) h1
    · exact SelfZeroing.append h0 (loop_selfZeroing c es _)

theorem serial_csr_loop_outputs (e : Entry) (csr M : Nat) :
    ∀ n k time, (serial_csr_loop e csr M n k time).1.all Event.output_as_specified = true := by
  intro n
  induction n with
  | zero => intro k time; simp [serial_csr_loop]
  | succ n ih =>
    intro k time
    simp only [serial_csr_loop, List.all_append, ih]
    simp [Event.output_as_specified]

theorem serial_hll_loop_outputs (e : Entry) (hll M : Nat) :
    ∀ n k time, (serial_hll_loop e hll M n k time).1.all Event.output_as_specified = true := by
  intro n
  induction n with
  | zero => intro k time; simp [serial_hll_loop]
  | succ n ih =>
    intro k time
    simp only [serial_hll_loop, List.all_append, ih]
    cases e.norm k <;> simp [Event.output_as_specified]

theorem iteration_outputs (c : matrix_format → matrix_format) (e : Entry) (s : State) :
    (iteration c e s).trace.all Event.output_as_specified = true := by
  unfold iteration
  simp only
  split
  · simp [Event.output_as_specified]
  · split
    · simp [Event.output_as_specified]
    · split
      · simp only [measure, List.all_append, serial_csr_loop_outputs, serial_hll_loop_outputs]
        simp [Event.output_as_specified]
      · simp [Event.output_as_specified]

theorem loop_outputs (c : matrix_format → matrix_format) (es : List Entry) :
    ∀ s, (loop c es s).trace.all Event.output_as_specified = true := by
  induction es with
  | nil => intro s; simp [loop, Event.output_as_specified]
  | cons e es ih =>
    intro s
    simp only [loop]
    split
    · simp only [List.all_cons, List.all_append, iteration_outputs, ih]
      simp [Event.output_as_specified]
    · simp only [List.all_cons, iteration_outputs]
      simp [Event.output_as_specified]

theorem main_outputs (c : matrix_format → matrix_format) (dir : Option (List Entry)) :
    (main c dir).trace.all Event.output_as_specified = true := by
  cases dir with
  | none => simp [main, Event.output_as_specified]
  | some es =>
    simp only [main]
    split
    · simp only [List.all_append, loop_outputs]
      simp [Event.output_as_specified]
    · simp only [List.all_append, loop_outputs]
      simp [Event.output_as_specified]

/-- C1: in every execution of `main`, whatever the directory holds and whatever
the outside calls answer, each call to a kernel entry point is preceded by a
`re_initialize_y_vector` call on the kernel's output buffer, and no kernel call,
allocation or release touches that buffer between the two; the output buffer is
`y` for `matvec_serial_csr` and `z` for the five other entry points. -/
theorem C1_output_zeroed_before_each_kernel (mtx_cleanup : matrix_format → matrix_format)
    (dir : Option (List Entry)) :
    ZeroedBeforeEachKernel (main mtx_cleanup dir).trace ∧
    ∀ ev ∈ (main mtx_cleanup dir).trace, ev.output_as_specified = true :=
  ⟨(main_selfZeroing mtx_cleanup dir).zeroed, List.all_eq_true.mp (main_outputs mtx_cleanup dir)⟩

/-! ## One processed matrix -/

theorem filter_check (q : Event → Bool) (ok : Bool)
    (h1 : q (Event.printf Message.check_error) = false) (h2 : q (Event.sleep 3) = false) :
    List.filter q (if ok = true then [] else [Event.printf Message.check_error, Event.sleep 3])
      = [] := by
  cases ok <;> simp [h1, h2]

theorem serial_csr_loop_time (e : Entry) (csr M : Nat) :
    ∀ n k time, (serial_csr_loop e csr M n k time).2 =
      time + ∑ i in Finset.range n, (e.csr_end (k + i) - e.csr_start (k + i)) := by
  intro n
  induction n with
  | zero => intro k time; simp [serial_csr_loop]
  | succ n ih =>
    intro k time
    simp only [serial_csr_loop, ih, Finset.sum_range_succ']
    have h : ∀ i, k + 1 + i = k + (i + 1) := fun i => by omega
    simp only [h, Nat.add_zero]
    ring

theorem serial_hll_loop_time (e : Entry) (hll M : Nat) :
    ∀ n k time, (serial_hll_loop e hll M n k time).2 =
      time + ∑ i in Finset.range n, (e.hll_end (k + i) - e.hll_start (k + i)) := by
  intro n
  induction n with
  | zero => intro k time; simp [serial_hll_loop]
  | succ n ih =>
    intro k time
    simp only [serial_hll_loop, ih, Finset.sum_range_succ']
    have h : ∀ i, k + 1 + i = k + (i + 1) := fun i => by omega
    simp only [h, Nat.add_zero]
    ring

/-- C5: for a processed matrix the events of `main` that name a vector are
exactly the schedule `vector_schedule`: every serial-HLL repetition is followed
by `compute_norm(y, z, M, 1e-4)` on the `z` that repetition's kernel just wrote;
`y` was last written by the fifth serial-CSR repetition; both serial kernels
get `x`; nothing in between writes `x` or `y`; and the same `y` is the baseline
argument of the two parallel and the two GPU entry points. -/
theorem C5_checks_against_serial_csr_baseline (mtx_cleanup : matrix_format → matrix_format)
    (e : Entry) (s : State) (d : Decoded) (hdot : e.d_name.data.head? ≠ some '.')
    (hread : e.read = some d) (hcalloc : e.calloc_ok = true) :
    (iteration mtx_cleanup e s).trace.filter Event.on_vectors =
      vector_schedule s.next d.M
        (mtx_cleanup (decoded_matrix e d)).number_of_non_zeoroes_values e.norm := by
  simp [iteration, measure, hdot, hread, hcalloc, serial_csr_loop, serial_hll_loop,
    COMPUTATION_NUMBER, filter_check, Event.on_vectors, Event.kernel_output, read_CSR_matrix,
    vector_schedule, decoded_matrix, TOLERANCE]

theorem C5_checks_against_serial_csr_baseline_witness :
    (iteration id (sample_entry "a.mtx" 2 3 4) State.initial).trace.filter Event.on_vectors =
      vector_schedule 0 2 4 (fun _ => true) :=
  C5_checks_against_serial_csr_baseline id (sample_entry "a.mtx" 2 3 4) State.initial
    { M := 2, N := 3, nnz := 4 } (by decide) rfl rfl

/-- The kernel calls and list appends of a processed matrix, whatever
`mtx_cleanup` does: two appends, record `p + 3` of kind `SERIAL_CSR` after the
five serial-CSR runs and record `p + 4` of kind `SERIAL_HHL` after the five
serial-HLL runs, both before the parallel and GPU entry points, called in
order.  The count the records and the parallel entry points get is the one
read back from the coordinate matrix after `mtx_cleanup`. -/
theorem records_of_processed (mtx_cleanup : matrix_format → matrix_format)
    (e : Entry) (s : State) (d : Decoded) (hdot : e.d_name.data.head? ≠ some '.')
    (hread : e.read = some d) (hcalloc : e.calloc_ok = true) :
    (iteration mtx_cleanup e s).trace.filter Event.kernel_or_append =
      record_schedule s.next e.d_name
        (mtx_cleanup (decoded_matrix e d)).number_of_non_zeoroes_values
        ((s.time + ∑ k in Finset.range COMPUTATION_NUMBER, (e.csr_end k - e.csr_start k))
          / (COMPUTATION_NUMBER : ℚ))
        (mean_duration e.hll_start e.hll_end) := by
  have h1 : (serial_csr_loop e s.next d.M COMPUTATION_NUMBER 0 s.time).2
      / (COMPUTATION_NUMBER : ℚ) =
      (s.time + ∑ k in Finset.range COMPUTATION_NUMBER, (e.csr_end k - e.csr_start k))
        / (COMPUTATION_NUMBER : ℚ) := by
    simp [serial_csr_loop_time]
  have h2 : (serial_hll_loop e (s.next + 1) d.M COMPUTATION_NUMBER 0 0).2
      / (COMPUTATION_NUMBER : ℚ) = mean_duration e.hll_start e.hll_end := by
    simp [serial_hll_loop_time, mean_duration]
  rw [← h1, ← h2]
  simp [iteration, measure, hdot, hread, hcalloc, serial_csr_loop, serial_hll_loop,
    COMPUTATION_NUMBER, filter_check, Event.kernel_or_append, Event.kernel_output,
    read_CSR_matrix, record_schedule, decoded_matrix, compute_serial_performance,
    performance.zeroed]

theorem filterMap_check (f : Event → Option ℚ) (ok : Bool)
    (h1 : f (Event.printf Message.check_error) = none) (h2 : f (Event.sleep 3) = none) :
    List.filterMap f
      (if ok = true then [] else [Event.printf Message.check_error, Event.sleep 3]) = [] := by
  cases ok <;> simp [h1, h2]

/-- The two time values a processed matrix hands to `compute_serial_performance`:
the serial-CSR one starts from the value `time` had when the iteration began,
the serial-HLL one is the mean of its own five durations. -/
theorem serial_times_of_processed (mtx_cleanup : matrix_format → matrix_format)
    (e : Entry) (s : State) (d : Decoded) (hdot : e.d_name.data.head? ≠ some '.')
    (hread : e.read = some d) (hcalloc : e.calloc_ok = true) :
    (iteration mtx_cleanup e s).trace.filterMap Event.serial_time =
      [(s.time + ∑ k in Finset.range COMPUTATION_NUMBER, (e.csr_end k - e.csr_start k))
          / (COMPUTATION_NUMBER : ℚ),
       mean_duration e.hll_start e.hll_end] := by
  simp [iteration, measure, hdot, hread, hcalloc, serial_csr_loop, serial_hll_loop,
    COMPUTATION_NUMBER, filterMap_check, Event.serial_time, read_CSR_matrix, mean_duration,
    Finset.sum_range_succ]
  constructor <;> ring

/-- C4: whatever `compute_norm` answers in the five serial-HLL repetitions of a
processed matrix, `matvec_serial_hll` is called five times; leaving aside the
check calls, the mismatch message and `sleep`, the trace and the final
variables are those of the run in which every check passes on the same clock
readings; the time handed to `compute_serial_performance` for serial-HLL is the
mean of the five durations; the serial-HLL record is appended and the parallel
and GPU entry points follow; the iteration ends normally. -/
theorem C4_check_mismatch_is_advisory (mtx_cleanup : matrix_format → matrix_format)
    (e : Entry) (s : State) (d : Decoded) (hdot : e.d_name.data.head? ≠ some '.')
    (hread : e.read = some d) (hcalloc : e.calloc_ok = true) :
    (iteration mtx_cleanup e s).trace.filter Event.is_serial_hll =
        List.replicate COMPUTATION_NUMBER (Event.matvec_serial_hll (s.next + 1) Vec.x Vec.z) ∧
    (iteration mtx_cleanup e s).trace.filter (fun ev => !ev.advisory) =
        (iteration mtx_cleanup { e with norm := fun _ => true } s).trace.filter
          (fun ev => !ev.advisory) ∧
    (iteration mtx_cleanup e s).state =
        (iteration mtx_cleanup { e with norm := fun _ => true } s).state ∧
    Event.compute_serial_performance (s.next + 4) (mean_duration e.hll_start e.hll_end)
        (mtx_cleanup (decoded_matrix e d)).number_of_non_zeoroes_values
      ∈ (iteration mtx_cleanup e s).trace ∧
    (∃ t1 : ℚ,
      (iteration mtx_cleanup e s).trace.filter Event.append_or_offload =
        [Event.add_node_performance (s.next + 3)
           { matrix := e.d_name
             non_zeroes_values := (mtx_cleanup (decoded_matrix e d)).number_of_non_zeoroes_values
             computation := some computation_type.SERIAL_CSR, mean_time := t1 },
         Event.add_node_performance (s.next + 4)
           { matrix := e.d_name
             non_zeroes_values := (mtx_cleanup (decoded_matrix e d)).number_of_non_zeoroes_values
             computation := some computation_type.SERIAL_HHL
             mean_time := mean_duration e.hll_start e.hll_end },
         Event.matvec_parallel_csr s.next Vec.x Vec.z (s.next + 5)
           (mtx_cleanup (decoded_matrix e d)).number_of_non_zeoroes_values Vec.y,
         Event.matvec_parallel_hll (s.next + 1) Vec.x Vec.z (s.next + 6)
           (mtx_cleanup (decoded_matrix e d)).number_of_non_zeoroes_values Vec.y,
         Event.invoke_cuda_csr_kernels s.next Vec.x Vec.z Vec.y (s.next + 7),
         Event.invoke_cuda_hll_kernels (s.next + 1) Vec.x Vec.z Vec.y (s.next + 8)]) ∧
    (iteration mtx_cleanup e s).outcome = Outcome.next_entry := by
  refine ⟨?_, ?_, ?_, ?_, ?_, ?_⟩
  · simp [iteration, measure, hdot, hread, hcalloc, serial_csr_loop, serial_hll_loop,
      COMPUTATION_NUMBER, filter_check, Event.is_serial_hll, read_CSR_matrix]
  · simp [iteration, measure, hdot, hread, hcalloc, serial_csr_loop, serial_hll_loop,
      COMPUTATION_NUMBER, filter_check, Event.advisory, read_CSR_matrix]
  · simp [iteration, measure, hdot, hread, hcalloc, serial_csr_loop_time,
      serial_hll_loop_time]
  · have h : (serial_hll_loop e (s.next + 1) d.M COMPUTATION_NUMBER 0 0).2
        / (COMPUTATION_NUMBER : ℚ) = mean_duration e.hll_start e.hll_end := by
      simp [serial_hll_loop_time, mean_duration]
    simp [iteration, measure, hdot, hread, hcalloc, read_CSR_matrix, decoded_matrix, h]
  · have h : (serial_hll_loop e (s.next + 1) d.M COMPUTATION_NUMBER 0 0).2
        / (COMPUTATION_NUMBER : ℚ) = mean_duration e.hll_start e.hll_end := by
      simp [serial_hll_loop_time, mean_duration]
    refine ⟨(serial_csr_loop e s.next d.M COMPUTATION_NUMBER 0 s.time).2
      / (COMPUTATION_NUMBER : ℚ), ?_⟩
    rw [← h]
    simp [iteration, measure, hdot, hread, hcalloc, serial_csr_loop, serial_hll_loop,
      COMPUTATION_NUMBER, filter_check, Event.append_or_offload, read_CSR_matrix,
      decoded_matrix, compute_serial_performance, performance.zeroed]
  · simp [iteration, measure, hdot, hread, hcalloc]

theorem C4_check_mismatch_is_advisory_witness :
    (iteration id { sample_entry "a.mtx" 2 3 4 with norm := fun k => decide (k ≠ 2) }
        State.initial).trace.filter (fun ev => !ev.advisory) =
      (iteration id (sample_entry "a.mtx" 2 3 4) State.initial).trace.filter
        (fun ev => !ev.advisory) :=
  (C4_check_mismatch_is_advisory id
    { sample_entry "a.mtx" 2 3 4 with norm := fun k => decide (k ≠ 2) } State.initial
    { M := 2, N := 3, nnz := 4 } (by decide) rfl rfl).2.1

/-! ## Faults -/

theorem loop_stops_at_failure (c : matrix_format → matrix_format) (e : Entry)
    (rest : List Entry) (hdot : e.d_name.data.head? ≠ some '.') (hread : e.read = none) :
    ∀ (pre : List Entry) (s : State),
      loop c (pre ++ e :: rest) s = loop c (pre ++ [e]) s ∧
      (loop c (pre ++ e :: rest) s).outcome ≠ Outcome.next_entry ∧
      ∀ status, (loop c (pre ++ e :: rest) s).outcome ≠ Outcome.returned status := by
  intro pre
  induction pre with
  | nil => intro s; simp [loop, iteration, hdot, hread]
  | cons a pre ih =>
    intro s
    simp only [List.cons_append, loop]
    split
    · have h := ih (iteration c a s).state
      refine ⟨?_, h.2.1, h.2.2⟩
      simp [h.1]
    · rename_i h
      refine ⟨rfl, h, ?_⟩
      intro status
      unfold iteration
      simp only
      split
      · simp
      · split
        · simp
        · split
          · simp [measure]
          · simp

/-- C7: if `opendir` fails, `main` prints a message and exits with
`EXIT_FAILURE` before any `readdir`.  If `read_matrix` returns -1 for an entry
that is not skipped, the run ends there with `exit(EXIT_FAILURE)`: after
`read_matrix` only the message and `exit` follow, so neither builder, no
kernel and no list append runs for the entry, and whatever entries the
directory still holds change nothing about the run, which never reaches
`return 0`. -/
theorem C7_ingestion_fault_aborts_run (mtx_cleanup : matrix_format → matrix_format) :
    ((main mtx_cleanup none).outcome = Outcome.exited EXIT_FAILURE ∧
      (main mtx_cleanup none).trace =
        [Event.initialize_threads_number, Event.opendir false,
         Event.printf Message.opendir_error, Event.exit EXIT_FAILURE]) ∧
    (∀ (e : Entry) (rest : List Entry) (s : State),
      e.d_name.data.head? ≠ some '.' → e.read = none →
      (loop mtx_cleanup (e :: rest) s).outcome = Outcome.exited EXIT_FAILURE ∧
      (loop mtx_cleanup (e :: rest) s).trace =
        [Event.readdir (some e.d_name),
         Event.get_csr_matrix s.next, Event.get_hll_matrix (s.next + 1),
         Event.get_matrix_format_matrix (s.next + 2),
         Event.printf Message.processing, Event.get_matrix_file e.d_name,
         Event.read_matrix (s.next + 2) false, Event.printf Message.read_error,
         Event.exit EXIT_FAILURE]) ∧
    (∀ (pre : List Entry) (e : Entry) (rest : List Entry),
      e.d_name.data.head? ≠ some '.' → e.read = none →
      main mtx_cleanup (some (pre ++ e :: rest)) = main mtx_cleanup (some (pre ++ [e])) ∧
      ∀ status, (main mtx_cleanup (some (pre ++ e :: rest))).outcome
        ≠ Outcome.returned status) := by
  refine ⟨⟨rfl, rfl⟩, ?_, ?_⟩
  · intro e rest s hdot hread
    simp [loop, iteration, hdot, hread]
  · intro pre e rest hdot hread
    have h := loop_stops_at_failure mtx_cleanup e rest hdot hread pre State.initial
    constructor
    · simp only [main, h.1]
    · intro status
      simp only [main]
      split
      · rename_i h2
        exact absurd h2 h.2.1
      · exact h.2.2 status

theorem C7_ingestion_fault_aborts_run_witness :
    (loop id [{ sample_entry "bad.mtx" 2 2 4 with read := none }, sample_entry "a.mtx" 2 2 4]
        State.initial).outcome = Outcome.exited EXIT_FAILURE ∧
    (loop id [{ sample_entry "bad.mtx" 2 2 4 with read := none }, sample_entry "a.mtx" 2 2 4]
        State.initial).trace =
      [Event.readdir (some "bad.mtx"),
       Event.get_csr_matrix 0, Event.get_hll_matrix 1, Event.get_matrix_format_matrix 2,
       Event.printf Message.processing, Event.get_matrix_file "bad.mtx",
       Event.read_matrix 2 false, Event.printf Message.read_error,
       Event.exit EXIT_FAILURE] :=
  (C7_ingestion_fault_aborts_run id).2.1 { sample_entry "bad.mtx" 2 2 4 with read := none }
    [sample_entry "a.mtx" 2 2 4] State.initial (by decide) rfl

/-! ## Where the driver departs from the specification -/

/-- C2: with two matrices in the directory, every repetition of every
measurement taking one time unit, the four time values handed to
`compute_serial_performance` are 1, 1, 6/5, 1: the serial-CSR value of the
second matrix is 6/5 although the mean of its five durations is 1, because
`time` still holds the serial-HLL mean of the first matrix when the second
serial-CSR loop starts adding to it. -/
theorem C2_second_matrix_serial_csr_time_carries_previous_mean :
    (main id (some [sample_entry "a.mtx" 2 2 4, sample_entry "b.mtx" 2 2 4])).trace.filterMap
        Event.serial_time = [1, 1, 6 / 5, 1] ∧
    mean_duration (sample_entry "b.mtx" 2 2 4).csr_start
        (sample_entry "b.mtx" 2 2 4).csr_end = 1 := by
  constructor
  · set_option maxRecDepth 8000 in
    simp [main, loop, iteration, measure, sample_entry, serial_csr_loop, serial_hll_loop,
      COMPUTATION_NUMBER, State.initial, Event.serial_time, read_CSR_matrix]
    norm_num
  · simp [mean_duration, sample_entry, COMPUTATION_NUMBER]

/-- C3: for a 2 by 3 matrix all three vectors, `x` included, are allocated with
length 2, the row count; no vector of length 3 is allocated. -/
theorem C3_x_allocated_with_row_count :
    (iteration id (sample_entry "a.mtx" 2 3 4) State.initial).trace.filter Event.allocates =
      [Event.initialize_x_vector 2,
       Event.initialize_y_vector Vec.y 2,
       Event.initialize_y_vector Vec.z 2] := by
  simp [iteration, measure, sample_entry, serial_csr_loop, serial_hll_loop,
    COMPUTATION_NUMBER, State.initial, Event.allocates, read_CSR_matrix]

/-- C8: when `calloc` returns NULL, `main` prints the message and, without
leaving the iteration, goes on to line 109, which stores the name through the
NULL `node`. -/
theorem C8_null_node_is_written_after_message :
    (iteration id { sample_entry "a.mtx" 2 2 4 with calloc_ok := false } State.initial).trace =
      [Event.get_csr_matrix 0, Event.get_hll_matrix 1, Event.get_matrix_format_matrix 2,
       Event.printf Message.processing, Event.get_matrix_file "a.mtx",
       Event.read_matrix 2 true, Event.read_non_zeroes 2 4, Event.printf Message.non_zeroes,
       Event.read_CSR_matrix 0 2, Event.read_HLL_matrix 1 2, Event.mtx_cleanup 2,
       Event.initialize_x_vector 2, Event.initialize_y_vector Vec.y 2,
       Event.initialize_y_vector Vec.z 2,
       Event.calloc none, Event.printf Message.calloc_error,
       Event.store_matrix none "a.mtx"] ∧
    (iteration id { sample_entry "a.mtx" 2 2 4 with calloc_ok := false }
      State.initial).outcome = Outcome.null_store := by
  simp [iteration, sample_entry, State.initial, read_CSR_matrix]

/-- C9: in the iteration of a processed matrix, after the call
`mtx_cleanup(matrix)` the nonzero-count field of that same coordinate matrix
object is read six times (lines 110, 131, 170, 171, 190, 206). -/
theorem C9_count_read_after_cleanup :
    ((after_cleanup 2 (iteration id (sample_entry "a.mtx" 2 2 4) State.initial).trace).filter
        (Event.reads_matrix 2)).length = 6 := by
  simp [iteration, measure, sample_entry, serial_csr_loop, serial_hll_loop,
    COMPUTATION_NUMBER, State.initial, Event.reads_matrix, read_CSR_matrix, after_cleanup]

/-- What does hold of releases: a processed entry destroys the CSR and HLL
objects it obtained and frees `x`, `y`, `z`, so the live sets are as before. -/
theorem processed_iteration_releases (mtx_cleanup : matrix_format → matrix_format)
    (e : Entry) (s : State) (d : Decoded) (hdot : e.d_name.data.head? ≠ some '.')
    (hread : e.read = some d) (hcalloc : e.calloc_ok = true) :
    (iteration mtx_cleanup e s).state.live_csr = s.live_csr ∧
    (iteration mtx_cleanup e s).state.live_hll = s.live_hll ∧
    (iteration mtx_cleanup e s).state.live_vec = s.live_vec := by
  simp [iteration, measure, hdot, hread, hcalloc]

/-- What a skipped entry does, from any state: three objects are obtained,
nothing is destroyed, and the CSR and HLL objects join the live sets. -/
theorem skipped_iteration (mtx_cleanup : matrix_format → matrix_format)
    (e : Entry) (s : State) (hdot : e.d_name.data.head? = some '.') :
    (iteration mtx_cleanup e s).trace =
      [Event.get_csr_matrix s.next, Event.get_hll_matrix (s.next + 1),
       Event.get_matrix_format_matrix (s.next + 2)] ∧
    (iteration mtx_cleanup e s).outcome = Outcome.next_entry ∧
    (iteration mtx_cleanup e s).state.live_csr = s.next :: s.live_csr ∧
    (iteration mtx_cleanup e s).state.live_hll = (s.next + 1) :: s.live_hll := by
  simp [iteration, hdot]

/-- C10: an iteration that skips an entry named "." obtains a CSR and an HLL
object and reaches the next `readdir` without any destroy call, so both are
still live there; after "." and ".." two of each are live. -/
theorem C10_skipped_entry_leaves_matrices_live :
    (iteration id (sample_entry "." 0 0 0) State.initial).trace =
      [Event.get_csr_matrix 0, Event.get_hll_matrix 1, Event.get_matrix_format_matrix 2] ∧
    (iteration id (sample_entry "." 0 0 0) State.initial).outcome = Outcome.next_entry ∧
    (iteration id (sample_entry "." 0 0 0) State.initial).state.live_csr = [0] ∧
    (iteration id (sample_entry "." 0 0 0) State.initial).state.live_hll = [1] ∧
    (loop id [sample_entry "." 0 0 0, sample_entry ".." 0 0 0] State.initial).state.live_csr
      = [3, 0] ∧
    (loop id [sample_entry "." 0 0 0, sample_entry ".." 0 0 0] State.initial).state.live_hll
      = [4, 1] := by
  simp [loop, iteration, sample_entry, State.initial]

end SpMV
